import Mathlib

/-!
Shallow embedding of the core of the mcp-unifi-network server:
the error model (`src/utils/errors.ts`), the retry loop
(`ErrorRecovery.withRetry`), the UniFi client's response normalization and
public configuration accessor (`src/unifi/client.ts`), the version and
capability detector (`src/unifi/versionDetector.ts`) and the tool registry
dispatcher (`src/server/toolRegistry.ts`).  Machine integers are modelled by
`Nat`, JavaScript floating point averages by `ℚ` (all arithmetic involved is
exact), timestamps by `Nat` milliseconds, and I/O probes and tool handlers by
explicit outcome parameters.  Fallible code returns `Except` or `Option`;
a thrown JavaScript exception is an `Except.error`.
-/

namespace UniFiMCP

/-! ### Error model (src/server/types.ts `ErrorCode`, src/utils/errors.ts) -/

/-- The `ErrorCode` string enum of `src/server/types.ts`, restricted to the
codes the core subsystems produce. -/
inductive ErrorCode where
  | CONNECTION_FAILED
  | AUTHENTICATION_FAILED
  | NETWORK_TIMEOUT
  | API_KEY_INVALID
  | API_RATE_LIMITED
  | FEATURE_NOT_SUPPORTED
  | HARDWARE_INCOMPATIBLE
  | VALIDATION_ERROR
  | RESOURCE_NOT_FOUND
  | INTERNAL_ERROR
  | TOOL_NOT_FOUND
  | TOOL_DISABLED
  | CONNECTION_REQUIRED
  | FEATURE_NOT_AVAILABLE
  | EXECUTION_ERROR
  | UNKNOWN_FEATURE
  | CAPABILITY_DETECTION_FAILED
  | SYSTEM_INFO_ERROR
deriving DecidableEq, Repr

/-- `UniFiMCPError` of `src/utils/errors.ts`: a typed error carrying a code,
an optional HTTP status code and a retryability flag. -/
structure UniFiMCPError where
  message : String
  code : ErrorCode
  statusCode : Option Nat := none
  retryable : Bool := false
deriving DecidableEq, Repr

/-- A value thrown by JavaScript code: either a typed `UniFiMCPError` or any
other exception, of which only the message is observed
(`(error as Error).message`). -/
inductive Thrown where
  | mcp (e : UniFiMCPError)
  | other (message : String)
deriving DecidableEq, Repr

/-! ### JSON values and response-envelope normalization
(src/unifi/client.ts `UniFiClient.get`/`post`/`put`/`delete`, lines 378-457) -/

/-- JSON values as delivered in an HTTP response body. -/
inductive Json where
  | null
  | bool (b : Bool)
  | num (q : ℚ)
  | str (s : String)
  | arr (elems : List Json)
  | obj (fields : List (String × Json))

/-- JavaScript property access `j[key]`: a field lookup on objects,
`undefined` (here `none`) on everything else. -/
def jsGet (j : Json) (key : String) : Option Json :=
  match j with
  | .obj fields => lookupField fields key
  | _ => none
where
  lookupField : List (String × Json) → String → Option Json
    | [], _ => none
    | (k, v) :: rest, key => if k = key then some v else lookupField rest key

/-- JavaScript truthiness of a JSON value. -/
def truthy : Json → Bool
  | .null => false
  | .bool b => b
  | .num q => decide (q ≠ 0)
  | .str s => decide (s ≠ "")
  | .arr _ => true
  | .obj _ => true

/-- Truthiness of a property access, `undefined` being falsy. -/
def fieldTruthy (j : Json) (key : String) : Bool :=
  match jsGet j key with
  | some v => truthy v
  | none => false

/-- The guard `response.data && response.data.meta && response.data.data`
of the client's request methods. -/
def envelopeDetected (d : Json) : Bool :=
  truthy d && fieldTruthy d "meta" && fieldTruthy d "data"

/-- `Array.isArray(response.data) ? response.data : [response.data]`. -/
def wrapData (d : Json) : Json :=
  match d with
  | .arr elems => .arr elems
  | _ => .arr [d]

/-- The synthetic success envelope `{ meta: { msg: 'success', rc: 'ok' },
data: ... }` built by the client's request methods. -/
def syntheticEnvelope (d : Json) : Json :=
  .obj [("meta", .obj [("msg", .str "success"), ("rc", .str "ok")]),
        ("data", wrapData d)]

/-- Response-shape normalization performed identically by
`UniFiClient.get`, `post`, `put` and `delete`: an envelope body is passed
through, any other body is wrapped in a synthetic success envelope. -/
def normalizeResponse (d : Json) : Json :=
  if envelopeDetected d then d else syntheticEnvelope d

/-! ### Version comparison (src/unifi/versionDetector.ts lines 479-495) -/

/-- `version.split('.')` at character level: split on every `'.'`,
preserving empty segments, as JavaScript `String.prototype.split` does. -/
def splitChars : List Char → List (List Char)
  | [] => [[]]
  | c :: cs =>
    if c = '.' then [] :: splitChars cs
    else
      match splitChars cs with
      | [] => [[c]]
      | g :: gs => (c :: g) :: gs

/-- `Number(p)` for a version component as the comparison consumes it with
`|| 0`: the value of an all-digit component, and `0` for an empty or
non-numeric component (`Number('') === 0`, and `NaN` is falsy). -/
def componentNat (p : String) : Nat :=
  if p.toList.all Char.isDigit then
    p.toList.foldl (fun acc c => acc * 10 + (c.toNat - 48)) 0
  else 0

/-- `version.split('.').map(Number)` with the `|| 0` collapse applied. -/
def parseVersion (s : String) : List Nat :=
  ((splitChars s.toList).map fun g => String.mk g).map componentNat

/-- `currentParts[i] || 0`: component at an index, missing components
treated as zero. -/
def padGet (l : List Nat) (i : Nat) : Nat := l.getD i 0

/-- The `for` loop of `isVersionAtLeast`: walk index `i` upward through
`max(currentParts.length, minimumParts.length)` components (the fuel
argument counts the remaining indices); the first strictly greater current
component decides `true`, the first strictly smaller decides `false`;
exhausting the loop means the versions are equal. -/
def cmpLoop (currentParts minimumParts : List Nat) : Nat → Nat → Bool
  | _, 0 => true
  | i, fuel + 1 =>
    let currentPart := padGet currentParts i
    let minimumPart := padGet minimumParts i
    if currentPart > minimumPart then true
    else if currentPart < minimumPart then false
    else cmpLoop currentParts minimumParts (i + 1) fuel

/-- `VersionDetector.isVersionAtLeast` (also used by the capability and
endpoint gates). -/
def isVersionAtLeast (current minimum : String) : Bool :=
  cmpLoop (parseVersion current) (parseVersion minimum) 0
    (max (parseVersion current).length (parseVersion minimum).length)

/-- The comparison from component `i` on: every later padded component
agrees, or at the first later disagreement the current version's component
is the larger one. -/
def specFrom (a b : List Nat) (i : Nat) : Prop :=
  (∀ j, i ≤ j → padGet a j = padGet b j) ∨
  (∃ j, i ≤ j ∧ padGet b j < padGet a j ∧
    ∀ k, i ≤ k → k < j → padGet a k = padGet b k)

/-- The specification's wording of the comparison: `a` is component-wise
lexicographically greater than or equal to `b`, with missing trailing
components treated as zero.  Either every padded component agrees, or at
the first disagreeing index `a`'s component is the larger one. -/
def specLexGE (a b : List Nat) : Prop :=
  (∀ i, padGet a i = padGet b i) ∨
  (∃ i, padGet b i < padGet a i ∧ ∀ j, j < i → padGet a j = padGet b j)

/-! ### Hardware compatibility and feature gating
(src/unifi/versionDetector.ts lines 110-128, 425-449, 497-505) -/

/-- JavaScript `s.includes(sub)`: substring containment. -/
def jsIncludes (s sub : String) : Bool :=
  go sub.toList s.toList
where
  go (needle : List Char) : List Char → Bool
    | [] => needle.isEmpty
    | c :: cs => needle.isPrefixOf (c :: cs) || go needle cs

/-- `normalizeModel`: lower-case the model name and strip `-`, `_` and
whitespace. -/
def normalizeModel (model : String) : String :=
  String.mk (((model.toList).map Char.toLower).filter
    (fun c => !(c = '-' || c = '_' || c.isWhitespace)))

/-- `VersionDetector.isHardwareModelCompatible`. -/
def isHardwareModelCompatible (actual required : String) : Bool :=
  jsIncludes (normalizeModel actual) (normalizeModel required)

/-- The body of `VersionDetector.checkZBFSupport`, generalized over the
compatibility-table row it reads (`minimumVersion`, `requiredHardware`):
fail the version gate first, then pass unconditionally on the `'all'`
hardware wildcard, otherwise require some compatible hardware entry. -/
def checkFeatureSupport (version hardwareModel minimumVersion : String)
    (requiredHardware : List String) : Bool :=
  if !(isVersionAtLeast version minimumVersion) then false
  else if requiredHardware.contains "all" then true
  else requiredHardware.any fun m =>
    jsIncludes hardwareModel m || isHardwareModelCompatible hardwareModel m

/-- `VERSION_REQUIREMENTS.ZBF_MINIMUM` (src/config/constants.ts). -/
def ZBF_MINIMUM : String := "9.0.0"

/-- `FEATURE_COMPATIBILITY.ZONE_BASED_FIREWALL.requiredHardware`
(src/config/constants.ts). -/
def zbfRequiredHardware : List String :=
  ["UCG-Ultra", "UCG-Max", "UDM-Pro", "UDM-Base"]

/-- `VersionDetector.checkZBFSupport` with its concrete table row. -/
def checkZBFSupport (version hardwareModel : String) : Bool :=
  checkFeatureSupport version hardwareModel ZBF_MINIMUM zbfRequiredHardware

/-- The specification's hardware gate in isolation: a wildcard set passes
every model, otherwise some required entry must match the model. -/
def hardwareGate (hardwareModel : String) (requiredHardware : List String) : Bool :=
  requiredHardware.contains "all" ||
    requiredHardware.any fun m =>
      jsIncludes hardwareModel m || isHardwareModelCompatible hardwareModel m

/-! ### Retry with exponential backoff
(src/utils/errors.ts `ErrorRecovery.withRetry`, lines 349-411) -/

/-- The `RetryConfig` of `ErrorRecovery`; the retry condition is passed
separately as a function argument. -/
structure RetryConfig where
  maxAttempts : Nat
  baseDelay : ℚ
  maxDelay : ℚ
  exponentialBackoff : Bool
deriving Repr

/-- `ErrorRecovery.defaultRetryConfig` without its retry condition. -/
def defaultRetryConfig : RetryConfig :=
  { maxAttempts := 3, baseDelay := 1000, maxDelay := 10000, exponentialBackoff := true }

/-- The default retry condition: a `UniFiMCPError` is retried according to
its `retryable` flag, any other exception is never retried. -/
def defaultRetryCondition : Thrown → Bool
  | .mcp e => e.retryable
  | .other _ => false

/-- The delay computed after the `attempt`-th failure (1-based), before the
next call: `min(baseDelay * 2^(attempt-1), maxDelay)` under exponential
backoff, plus the jitter drawn for that failure (`Math.random() * 1000`). -/
def backoffDelay (cfg : RetryConfig) (attempt : Nat) (jitter : ℚ) : ℚ :=
  (if cfg.exponentialBackoff then
    min (cfg.baseDelay * 2 ^ (attempt - 1)) cfg.maxDelay
   else cfg.baseDelay) + jitter

/-- The `while (attempt < maxAttempts)` loop of `withRetry`.  `ops k` is the
outcome of the `k`-th underlying call (0-based), `jitter n` the jitter drawn
after the `n`-th failure (1-based).  The fuel argument equals
`maxAttempts - attempt`, so fuel exhaustion is exactly the loop condition
turning false.  Returns the overall outcome, the number of underlying calls
made, and the list of delays slept. -/
def withRetryGo {α : Type} (ops : Nat → Except Thrown α) (cond : Thrown → Bool)
    (cfg : RetryConfig) (jitter : Nat → ℚ) (attempt : Nat) (lastError : Option Thrown) :
    Nat → Except Thrown α × Nat × List ℚ
  | 0 => (.error (lastError.getD (.other "retry loop not entered")), attempt, [])
  | fuel + 1 =>
    match ops attempt with
    | .ok v => (.ok v, attempt + 1, [])
    | .error e =>
      if cfg.maxAttempts ≤ attempt + 1 || !cond e then
        (.error e, attempt + 1, [])
      else
        let d := backoffDelay cfg (attempt + 1) (jitter (attempt + 1))
        let rest := withRetryGo ops cond cfg jitter (attempt + 1) (some e) fuel
        (rest.1, rest.2.1, d :: rest.2.2)

/-- `ErrorRecovery.withRetry`. -/
def withRetry {α : Type} (ops : Nat → Except Thrown α) (cond : Thrown → Bool)
    (cfg : RetryConfig) (jitter : Nat → ℚ) : Except Thrown α × Nat × List ℚ :=
  withRetryGo ops cond cfg jitter 0 none cfg.maxAttempts

/-! ### Capability detection and caching
(src/unifi/versionDetector.ts lines 27-79, 455-468, 523-545) -/

/-- The `hardwareCapabilities` field of a capability snapshot. -/
structure HardwareCapabilities where
  model : String
  supportsAdvancedFirewall : Bool
  maxFirewallRules : Nat
  maxZones : Nat
deriving DecidableEq, Repr

/-- `FeatureCapabilities` (src/server/types.ts): the immutable capability
snapshot derived from a system-info probe. -/
structure FeatureCapabilities where
  version : String
  supportsZBF : Bool
  supportsLegacyFirewall : Bool
  supportedEndpoints : List String
  deprecatedEndpoints : List String
  hardwareCapabilities : HardwareCapabilities
deriving DecidableEq, Repr

/-- The detector's mutable cache fields (`cachedCapabilities`,
`cacheTimestamp`). -/
structure DetectorState where
  cachedCapabilities : Option FeatureCapabilities
  cacheTimestamp : Option Nat
deriving DecidableEq, Repr

/-- The constructor state of `VersionDetector`: nothing cached. -/
def initialDetectorState : DetectorState := ⟨none, none⟩

/-- `cacheValidityMinutes = 60`. -/
def cacheValidityMinutes : Nat := 60

/-- `VersionDetector.isCacheValid`: a snapshot and timestamp exist and the
cache age is below the validity window. -/
def isCacheValid (st : DetectorState) (now : Nat) : Bool :=
  match st.cachedCapabilities, st.cacheTimestamp with
  | some _, some ts => now - ts < cacheValidityMinutes * 60 * 1000
  | _, _ => false

/-- The error thrown when the underlying probe fails. -/
def capabilityDetectionFailure : UniFiMCPError :=
  { message := "Unable to detect UniFi capabilities",
    code := .CAPABILITY_DETECTION_FAILED, statusCode := some 500 }

/-- The cache-miss path of `detectCapabilities`: probe, derive and cache.
`probe` is the combined outcome of `client.getSystemInfo()` followed by
`analyzeCapabilities` (the I/O boundary of the detector); on failure nothing
is cached.  The `Nat` component counts underlying probes issued. -/
def freshDetect (st : DetectorState) (now : Nat)
    (probe : Except UniFiMCPError FeatureCapabilities) :
    Except UniFiMCPError FeatureCapabilities × DetectorState × Nat :=
  match probe with
  | .ok caps => (.ok caps, ⟨some caps, some now⟩, 1)
  | .error _ => (.error capabilityDetectionFailure, st, 1)

/-- `VersionDetector.detectCapabilities`: return the cached snapshot while
the cache is valid, otherwise probe and cache. -/
def detectCapabilities (st : DetectorState) (now : Nat)
    (probe : Except UniFiMCPError FeatureCapabilities) :
    Except UniFiMCPError FeatureCapabilities × DetectorState × Nat :=
  match st.cachedCapabilities with
  | some caps => if isCacheValid st now then (.ok caps, st, 0) else freshDetect st now probe
  | none => freshDetect st now probe

/-- `VersionDetector.clearCache`. -/
def clearCache (_st : DetectorState) : DetectorState := ⟨none, none⟩

/-- `VersionDetector.forceDetection`: clear the cache, then detect. -/
def forceDetection (st : DetectorState) (now : Nat)
    (probe : Except UniFiMCPError FeatureCapabilities) :
    Except UniFiMCPError FeatureCapabilities × DetectorState × Nat :=
  detectCapabilities (clearCache st) now probe

/-! ### Client configuration (src/unifi/client.ts `UniFiClientOptions`,
`UniFiClient.getConfig`) -/

/-- The optional `retryConfig` of `UniFiClientOptions`. -/
structure RetryOptions where
  maxAttempts : Nat
  baseDelay : ℚ
  maxDelay : ℚ
deriving DecidableEq, Repr

/-- The optional `rateLimit` of `UniFiClientOptions`. -/
structure RateLimitOptions where
  requestsPerMinute : Nat
  burstLimit : Nat
deriving DecidableEq, Repr

/-- `UniFiClientOptions`: `UniFiConfig` (src/index.ts lines 176-184) plus the
client-specific optional fields. -/
structure UniFiClientOptions where
  gatewayIp : String
  apiKey : String
  siteId : String
  verifySSL : Bool
  timeout : Nat
  maxRetries : Nat
  port : Option Nat
  useHTTPS : Option Bool
  enableRetry : Option Bool
  retryConfig : Option RetryOptions
  rateLimit : Option RateLimitOptions
deriving DecidableEq, Repr

/-- The type returned by `UniFiClient.getConfig`:
`Omit<UniFiClientOptions, 'apiKey'>`. -/
structure PublicClientConfig where
  gatewayIp : String
  siteId : String
  verifySSL : Bool
  timeout : Nat
  maxRetries : Nat
  port : Option Nat
  useHTTPS : Option Bool
  enableRetry : Option Bool
  retryConfig : Option RetryOptions
  rateLimit : Option RateLimitOptions
deriving DecidableEq, Repr

/-- `UniFiClient.getConfig`: `const { apiKey, ...config } = this.config;
return config;`. -/
def getConfig (c : UniFiClientOptions) : PublicClientConfig :=
  { gatewayIp := c.gatewayIp, siteId := c.siteId, verifySSL := c.verifySSL,
    timeout := c.timeout, maxRetries := c.maxRetries, port := c.port,
    useHTTPS := c.useHTTPS, enableRetry := c.enableRetry,
    retryConfig := c.retryConfig, rateLimit := c.rateLimit }

/-! ### Tool registry and dispatcher (src/server/toolRegistry.ts,
src/server/types.ts) -/

/-- `ToolCategory` (src/server/types.ts). -/
inductive ToolCategory where
  | connection | devices | clients | firewallLegacy | firewallZbf
  | networks | groups | monitoring | automation
deriving DecidableEq, Repr

/-- `MCPTool` (src/server/types.ts).  The bound handler is modelled per
invocation by a `HandlerOutcome` argument to `executeTool` rather than as a
field, since handlers are arbitrary asynchronous functions. -/
structure MCPTool where
  name : String
  description : String
  inputSchema : String
  category : ToolCategory
  requiresConnection : Bool
  requiresVersion : Option String
deriving DecidableEq, Repr

/-- The error part of a `ToolResult`. -/
structure ResultError where
  code : ErrorCode
  message : String
deriving DecidableEq, Repr

/-- The metadata part of a `ToolResult`. -/
structure ResultMetadata where
  executionTime : Nat
  timestamp : Nat
deriving DecidableEq, Repr

/-- `ToolResult` (src/server/types.ts). -/
structure ToolResult where
  success : Bool
  data : Option Json := none
  error : Option ResultError := none
  warnings : List String := []
  metadata : Option ResultMetadata := none

/-- The outcome of one handler call: a returned `ToolResult`, or a thrown
exception. -/
inductive HandlerOutcome where
  | ok (r : ToolResult)
  | thrown (e : Thrown)

/-- `ToolRegistryEntry` (src/server/types.ts): a tool plus its mutable
runtime bookkeeping. -/
structure ToolRegistryEntry where
  tool : MCPTool
  registered : Nat := 0
  enabled : Bool := true
  usageCount : Nat := 0
  averageExecutionTime : ℚ := 0
  errorCount : Nat := 0
  lastUsed : Option Nat := none
  dependencies : List String := []

/-- The registry's `tools` map, as an association list in insertion order
(every name occurs at most once under `register`). -/
abbrev Registry := List (String × ToolRegistryEntry)

/-- `this.tools.get(name)`. -/
def lookupTool (reg : Registry) (name : String) : Option ToolRegistryEntry :=
  match reg with
  | [] => none
  | (n, e) :: rest => if n = name then some e else lookupTool rest name

/-- Replace the entry stored under `name`, leaving the rest of the map
unchanged (in-place mutation of the map entry in the source). -/
def updateEntry (reg : Registry) (name : String)
    (f : ToolRegistryEntry → ToolRegistryEntry) : Registry :=
  match reg with
  | [] => []
  | (n, e) :: rest =>
    if n = name then (n, f e) :: rest else (n, e) :: updateEntry rest name f

/-- `ToolRegistry.extractDependencies`. -/
def extractDependencies (tool : MCPTool) : List String :=
  (if tool.requiresConnection then ["unifi_connect"] else []) ++
  (if tool.requiresVersion.isSome then ["version_check"] else []) ++
  (match tool.category with
   | .firewallZbf => ["zbf_support"]
   | .firewallLegacy => ["legacy_firewall_support"]
   | _ => [])

/-- `ToolRegistry.getCategoryFeature`. -/
def getCategoryFeature (category : ToolCategory) : String :=
  match category with
  | .firewallZbf => "zbf"
  | .firewallLegacy => "legacy-firewall"
  | .monitoring => "monitoring"
  | .automation => "automation"
  | _ => "basic"

/-- One case of the `switch` in `ToolRegistry.validateDependencies`.
`vf feature` models `versionDetector.validateFeature(feature)`: `none` when
the feature validates, `some e` when it throws `e`. -/
def dependencyFailure (dep : String) (connected : Bool)
    (vf : String → Option UniFiMCPError) : Option UniFiMCPError :=
  match dep with
  | "unifi_connect" =>
    if connected then none
    else some { message := "UniFi connection required", code := .CONNECTION_REQUIRED }
  | "zbf_support" => vf "zbf"
  | "legacy_firewall_support" => vf "legacy-firewall"
  | _ => none

/-- `ToolRegistry.validateDependencies`: the first failing dependency
throws. -/
def validateDependencies (deps : List String) (connected : Bool)
    (vf : String → Option UniFiMCPError) : Option UniFiMCPError :=
  match deps with
  | [] => none
  | d :: rest =>
    match dependencyFailure d connected vf with
    | some e => some e
    | none => validateDependencies rest connected vf

/-- `ToolRegistry.updateUsageStats`: increment the usage count, stamp the
last use, recompute the running average execution time, and count an error
when the invocation was unsuccessful. -/
def updateUsageStats (entry : ToolRegistryEntry) (executionTime : Nat)
    (success : Bool) (now : Nat) : ToolRegistryEntry :=
  { entry with
    usageCount := entry.usageCount + 1
    lastUsed := some now
    averageExecutionTime :=
      (entry.averageExecutionTime * (((entry.usageCount + 1 : Nat) : ℚ) - 1) +
        (executionTime : ℚ)) / ((entry.usageCount + 1 : Nat) : ℚ)
    errorCount := if success then entry.errorCount else entry.errorCount + 1 }

/-- The error thrown by `executeTool` for an unregistered name. -/
def toolNotFoundError (toolName : String) : UniFiMCPError :=
  { message := s!"Tool '{toolName}' not found", code := .TOOL_NOT_FOUND,
    statusCode := some 404 }

/-- The error thrown by `executeTool` for a disabled tool. -/
def toolDisabledError (toolName : String) : UniFiMCPError :=
  { message := s!"Tool '{toolName}' is disabled", code := .TOOL_DISABLED,
    statusCode := some 403 }

/-- The error thrown by `executeTool` when a connection-requiring tool is
invoked without an active connection. -/
def connectionRequiredError (toolName : String) : UniFiMCPError :=
  { message := s!"Tool '{toolName}' requires an active UniFi connection",
    code := .CONNECTION_REQUIRED, statusCode := some 412 }

/-- The error thrown by `executeTool` when the category feature fails to
validate for a version-gated tool. -/
def featureUnavailableError (toolName : String) : UniFiMCPError :=
  { message := s!"Tool '{toolName}' requires features not available in current UniFi version",
    code := .FEATURE_NOT_AVAILABLE, statusCode := some 501 }

/-- The feature precondition of `executeTool` (lines 246-258): only tools
with a `requiresVersion` consult `validateFeature`, and any failure is
wrapped into a `FEATURE_NOT_AVAILABLE` error. -/
def featurePrecheck (entry : ToolRegistryEntry)
    (vf : String → Option UniFiMCPError) (toolName : String) : Option UniFiMCPError :=
  match entry.tool.requiresVersion with
  | none => none
  | some _ =>
    match vf (getCategoryFeature entry.tool.category) with
    | none => none
    | some _ => some (featureUnavailableError toolName)

/-- The classified code of a caught handler exception: a `UniFiMCPError`
keeps its code, anything else becomes `EXECUTION_ERROR`. -/
def thrownErrorCode : Thrown → ErrorCode
  | .mcp e => e.code
  | .other _ => .EXECUTION_ERROR

/-- The message of a caught handler exception. -/
def thrownErrorMessage : Thrown → String
  | .mcp e => e.message
  | .other m => m

/-- The structured failure result built in the `catch` block of
`executeTool`. -/
def errorToolResult (code : ErrorCode) (message : String)
    (executionTime timestamp : Nat) : ToolResult :=
  { success := false, error := some { code := code, message := message },
    metadata := some { executionTime := executionTime, timestamp := timestamp } }

/-- The `try` block of `executeTool` (lines 260-305): validate dependencies,
run the handler, and record statistics; any exception in this phase is
caught, counted (`entry.errorCount++` followed by `updateUsageStats` with
`success = false`) and converted into a structured failure result.
`executionTime` models `Date.now() - startTime` and `now` the completion
timestamp. -/
def executePhase (reg : Registry) (connected : Bool)
    (vf : String → Option UniFiMCPError) (toolName : String)
    (entry : ToolRegistryEntry) (outcome : HandlerOutcome)
    (executionTime now : Nat) : Registry × ToolResult :=
  match validateDependencies entry.dependencies connected vf with
  | some e =>
    (updateEntry reg toolName
      (fun en => updateUsageStats { en with errorCount := en.errorCount + 1 }
        executionTime false now),
     errorToolResult e.code e.message executionTime now)
  | none =>
    match outcome with
    | .ok r =>
      (updateEntry reg toolName
        (fun en => updateUsageStats en executionTime r.success now), r)
    | .thrown e =>
      (updateEntry reg toolName
        (fun en => updateUsageStats { en with errorCount := en.errorCount + 1 }
          executionTime false now),
       errorToolResult (thrownErrorCode e) (thrownErrorMessage e) executionTime now)

/-- `ToolRegistry.executeTool`: the dispatcher.  Precondition failures
(unknown name, disabled tool, missing connection, unavailable feature) are
thrown to the caller (`Except.error`); once the execution phase is reached
the invocation always resolves to a structured result (`Except.ok`).
`connected` models `unifiClient.isConnected()` and `vf` models
`versionDetector.validateFeature`. -/
def executeTool (reg : Registry) (connected : Bool)
    (vf : String → Option UniFiMCPError) (toolName : String)
    (outcome : HandlerOutcome) (executionTime now : Nat) :
    Except UniFiMCPError (Registry × ToolResult) :=
  match lookupTool reg toolName with
  | none => .error (toolNotFoundError toolName)
  | some entry =>
    if !entry.enabled then .error (toolDisabledError toolName)
    else if entry.tool.requiresConnection && !connected then
      .error (connectionRequiredError toolName)
    else
      match featurePrecheck entry vf toolName with
      | some e => .error e
      | none => .ok (executePhase reg connected vf toolName entry outcome executionTime now)

/-- The entry stored under `name` after an invocation that reached the
execution phase (`none` when the invocation threw). -/
def entryAfter (res : Except UniFiMCPError (Registry × ToolResult))
    (name : String) : Option ToolRegistryEntry :=
  match res with
  | .ok (reg, _) => lookupTool reg name
  | .error _ => none

/-! ### Catalog listings (src/server/toolRegistry.ts lines 125-210) -/

/-- The record shape returned to the MCP layer by `getToolsForMCP`. -/
structure ToolListing where
  name : String
  description : String
  inputSchema : String
deriving DecidableEq, Repr

/-- The projection applied by `getToolsForMCP` to each tool. -/
def toolListing (t : MCPTool) : ToolListing :=
  { name := t.name, description := t.description, inputSchema := t.inputSchema }

/-- `ToolRegistry.getAllTools`: enabled entries only. -/
def getAllTools (reg : Registry) : List MCPTool :=
  (reg.filter (fun p => p.2.enabled)).map (fun p => p.2.tool)

/-- `ToolRegistry.getAllToolsForDocumentation`: every registered entry,
disabled ones included. -/
def getAllToolsForDocumentation (reg : Registry) : List MCPTool :=
  reg.map (fun p => p.2.tool)

/-- `ToolRegistry.getAvailableTools`.  `avail` models the outcome of
`versionDetector.getToolAvailability()`: `none` when it throws (the
fail-open fallback to all enabled tools), otherwise the per-name
`available` flag (`none` for a name with no availability record). -/
def getAvailableTools (reg : Registry) (avail : Option (String → Option Bool)) :
    List MCPTool :=
  match avail with
  | none => getAllTools reg
  | some f =>
    (reg.filter (fun p => p.2.enabled && (f p.1).getD false)).map (fun p => p.2.tool)

/-- `ToolRegistry.getToolsForMCP`: the full registered catalog while no
connection is established, the available subset when connected. -/
def getToolsForMCP (reg : Registry) (connected : Bool)
    (avail : Option (String → Option Bool)) : List ToolListing :=
  let toolsToReturn :=
    if !connected then getAllToolsForDocumentation reg
    else getAvailableTools reg avail
  toolsToReturn.map toolListing

/-! ### Concrete fixtures used by witnesses and counterexamples -/

/-- A feature validator that accepts every feature. -/
def vfNone : String → Option UniFiMCPError := fun _ => none

/-- A successful handler result. -/
def okResult : ToolResult := { success := true }

/-- A plain registered tool with no preconditions. -/
def demoTool : MCPTool :=
  { name := "t1", description := "demo tool", inputSchema := "object",
    category := .devices, requiresConnection := false, requiresVersion := none }

/-- The registry entry for `demoTool` as `register` creates it. -/
def demoEntry : ToolRegistryEntry :=
  { tool := demoTool, dependencies := extractDependencies demoTool }

/-- A registry holding only `demoTool`. -/
def demoRegistry : Registry := [("t1", demoEntry)]

/-- A connection-requiring tool. -/
def disabledTool : MCPTool :=
  { name := "t2", description := "disabled tool", inputSchema := "object",
    category := .devices, requiresConnection := true, requiresVersion := none }

/-- The entry for `disabledTool` after `setToolEnabled(name, false)`. -/
def disabledEntry : ToolRegistryEntry :=
  { tool := disabledTool, enabled := false,
    dependencies := extractDependencies disabledTool }

/-- A registry holding only the disabled tool. -/
def disabledRegistry : Registry := [("t2", disabledEntry)]

/-! ### Supporting lemmas -/

theorem lookupTool_updateEntry (reg : Registry) (name : String)
    (f : ToolRegistryEntry → ToolRegistryEntry) :
    lookupTool (updateEntry reg name f) name = (lookupTool reg name).map f := by
  induction reg with
  | nil => rfl
  | cons hd tl ih =>
    obtain ⟨n, e⟩ := hd
    by_cases h : n = name
    · simp [lookupTool, updateEntry, h]
    · simp [lookupTool, updateEntry, h, ih]

/-- `updateUsageStats` with the average written over the old usage count. -/
theorem updateUsageStats_eq (entry : ToolRegistryEntry) (t : Nat) (s : Bool)
    (now : Nat) :
    updateUsageStats entry t s now =
      { entry with
        usageCount := entry.usageCount + 1
        lastUsed := some now
        averageExecutionTime :=
          (entry.averageExecutionTime * (entry.usageCount : ℚ) + (t : ℚ)) /
            ((entry.usageCount : ℚ) + 1)
        errorCount := if s then entry.errorCount else entry.errorCount + 1 } := by
  obtain ⟨tool, regd, en, u, avg, ecnt, lu, deps⟩ := entry
  simp only [updateUsageStats, ToolRegistryEntry.mk.injEq]
  norm_num

/-! ### C10 — the credential never reaches the public configuration -/

/-- C10: two client configurations differing only in `apiKey` yield equal
`getConfig()` results; the credential is unobservable through the public
configuration accessor. -/
theorem getConfig_independent_of_apiKey :
    ∀ (c : UniFiClientOptions) (k1 k2 : String),
      getConfig { c with apiKey := k1 } = getConfig { c with apiKey := k2 } :=
  fun _ _ _ => rfl

/-! ### C2 — dispatcher precondition ordering -/

/-- C2: an unregistered name throws the `TOOL_NOT_FOUND` error even with no
connection (not `CONNECTION_REQUIRED`), and a registered but disabled tool
that requires a connection throws the `TOOL_DISABLED` error with no
connection: the disabled check precedes the connection check. -/
theorem dispatcher_precondition_ordering :
    (∀ (reg : Registry) (vf : String → Option UniFiMCPError)
       (outcome : HandlerOutcome) (t now : Nat) (name : String),
       lookupTool reg name = none →
       executeTool reg false vf name outcome t now = .error (toolNotFoundError name)) ∧
    (∀ (reg : Registry) (vf : String → Option UniFiMCPError)
       (outcome : HandlerOutcome) (t now : Nat) (name : String)
       (entry : ToolRegistryEntry),
       lookupTool reg name = some entry →
       entry.enabled = false →
       entry.tool.requiresConnection = true →
       executeTool reg false vf name outcome t now = .error (toolDisabledError name)) ∧
    (∀ name, (toolNotFoundError name).code = .TOOL_NOT_FOUND ∧
      (toolDisabledError name).code = .TOOL_DISABLED) := by
  refine ⟨?_, ?_, ?_⟩
  · intro reg vf outcome t now name h
    simp [executeTool, h]
  · intro reg vf outcome t now name entry h hdis _hconn
    simp [executeTool, h, hdis]
  · intro name
    exact ⟨rfl, rfl⟩

/-- Witness for C2's theorem at concrete inputs. -/
theorem dispatcher_precondition_ordering_witness :
    executeTool [] false vfNone "missing" (.ok okResult) 3 9 =
      .error (toolNotFoundError "missing") ∧
    executeTool disabledRegistry false vfNone "t2" (.ok okResult) 3 9 =
      .error (toolDisabledError "t2") :=
  ⟨dispatcher_precondition_ordering.1 [] vfNone (.ok okResult) 3 9 "missing" rfl,
   dispatcher_precondition_ordering.2.1 disabledRegistry vfNone (.ok okResult) 3 9
     "t2" disabledEntry rfl rfl rfl⟩

/-! ### C1 — the claim that invocation never throws -/

/-- C1 counterexample: invoking an unregistered tool name makes
`executeTool` throw a `UniFiMCPError` to the caller instead of returning a
result object, refuting the claim that invocation never throws. -/
theorem executeTool_throws_counterexample :
    executeTool [] true vfNone "missing" (.ok okResult) 5 10 =
      .error (toolNotFoundError "missing") := rfl

/-- C1 amended: precondition failures (unknown name, disabled tool, missing
connection, unavailable feature) are thrown; but once every precondition
passes and the execution phase is reached, the invocation never throws —
handler success, handler-thrown errors and dependency-validation failures
all resolve to a structured result object. -/
theorem execution_phase_never_throws :
    ∀ (reg : Registry) (connected : Bool) (vf : String → Option UniFiMCPError)
      (name : String) (entry : ToolRegistryEntry) (outcome : HandlerOutcome)
      (t now : Nat),
      lookupTool reg name = some entry →
      entry.enabled = true →
      (entry.tool.requiresConnection && !connected) = false →
      featurePrecheck entry vf name = none →
      (executeTool reg connected vf name outcome t now).isOk = true := by
  intro reg connected vf name entry outcome t now hlook hen hconn hfeat
  simp [executeTool, hlook, hen, hconn, hfeat, Except.isOk, Except.toBool]

/-- Witness for C1's amended theorem: a handler that throws still yields a
structured result. -/
theorem execution_phase_never_throws_witness :
    (executeTool demoRegistry true vfNone "t1"
      (.thrown (.other "boom")) 5 10).isOk = true :=
  execution_phase_never_throws demoRegistry true vfNone "t1" demoEntry
    (.thrown (.other "boom")) 5 10 rfl rfl rfl rfl

/-! ### C3 — the external catalog listing -/

/-- C3 counterexample: with no connection established, `getToolsForMCP`
returns the record of a disabled tool, so it does not return exactly the
enabled entries' records. -/
theorem getToolsForMCP_counterexample :
    getToolsForMCP disabledRegistry false none = [toolListing disabledTool] ∧
    getToolsForMCP disabledRegistry false none ≠
      (getAllTools disabledRegistry).map toolListing := by
  constructor
  · rfl
  · decide

/-- C3 amended: with no connection, `getToolsForMCP` returns every
registered entry's record, disabled entries included; when connected it
returns exactly the enabled entries whose availability flag is set, falling
back to all enabled entries when availability lookup fails. -/
theorem getToolsForMCP_listing :
    (∀ (reg : Registry) (avail : Option (String → Option Bool)),
      getToolsForMCP reg false avail = (getAllToolsForDocumentation reg).map toolListing) ∧
    (∀ (reg : Registry) (f : String → Option Bool),
      getToolsForMCP reg true (some f) =
        (reg.filter fun p => p.2.enabled && (f p.1).getD false).map
          (fun p => toolListing p.2.tool)) ∧
    (∀ reg : Registry,
      getToolsForMCP reg true none = (getAllTools reg).map toolListing) := by
  refine ⟨?_, ?_, ?_⟩
  · intro reg avail
    rfl
  · intro reg f
    simp [getToolsForMCP, getAvailableTools, List.map_map]
  · intro reg
    rfl

/-! ### C4 — usage statistics -/

/-- C4 counterexample: a handler-thrown error increments the entry's error
counter twice (once in the `catch` block, once more inside
`updateUsageStats` for the unsuccessful invocation), so starting from an
error count of zero the count after one thrown error is 2, not 1. -/
theorem usage_stats_counterexample :
    demoEntry.errorCount = 0 ∧
    (entryAfter (executeTool demoRegistry true vfNone "t1"
        (.thrown (.other "boom")) 5 10) "t1").map
      (fun en => en.errorCount) = some 2 := by
  exact ⟨rfl, rfl⟩

/-- C4 amended: an invocation reaching the execution phase increments the
usage count by one, stamps the last-used timestamp, and recomputes the
average execution time as `((oldAvg * (n-1)) + newLatency) / n` with `n`
the new usage count; a handler-returned failure increments the error count
by one, while a handler-thrown error increments it by exactly two. -/
theorem usage_stats_recorded :
    ∀ (reg : Registry) (connected : Bool) (vf : String → Option UniFiMCPError)
      (name : String) (entry : ToolRegistryEntry) (r : ToolResult) (e : Thrown)
      (t now : Nat),
      lookupTool reg name = some entry →
      entry.enabled = true →
      (entry.tool.requiresConnection && !connected) = false →
      featurePrecheck entry vf name = none →
      validateDependencies entry.dependencies connected vf = none →
      (entryAfter (executeTool reg connected vf name (.ok r) t now) name =
        some { entry with
          usageCount := entry.usageCount + 1
          lastUsed := some now
          averageExecutionTime :=
            (entry.averageExecutionTime * (entry.usageCount : ℚ) + (t : ℚ)) /
              ((entry.usageCount : ℚ) + 1)
          errorCount :=
            if r.success then entry.errorCount else entry.errorCount + 1 }) ∧
      (entryAfter (executeTool reg connected vf name (.thrown e) t now) name =
        some { entry with
          usageCount := entry.usageCount + 1
          lastUsed := some now
          averageExecutionTime :=
            (entry.averageExecutionTime * (entry.usageCount : ℚ) + (t : ℚ)) /
              ((entry.usageCount : ℚ) + 1)
          errorCount := entry.errorCount + 2 }) := by
  intro reg connected vf name entry r e t now hlook hen hconn hfeat hdeps
  constructor
  · simp [executeTool, hlook, hen, hconn, hfeat, entryAfter, executePhase,
      hdeps, lookupTool_updateEntry, updateUsageStats_eq]
  · simp [executeTool, hlook, hen, hconn, hfeat, entryAfter, executePhase,
      hdeps, lookupTool_updateEntry, updateUsageStats_eq]

/-- Witness for C4's amended theorem at concrete inputs. -/
theorem usage_stats_recorded_witness :
    (entryAfter (executeTool demoRegistry true vfNone "t1" (.ok okResult) 5 10) "t1" =
      some { demoEntry with
        usageCount := demoEntry.usageCount + 1
        lastUsed := some 10
        averageExecutionTime :=
          (demoEntry.averageExecutionTime * (demoEntry.usageCount : ℚ) + (5 : ℚ)) /
            ((demoEntry.usageCount : ℚ) + 1)
        errorCount :=
          if okResult.success then demoEntry.errorCount else demoEntry.errorCount + 1 }) ∧
    (entryAfter (executeTool demoRegistry true vfNone "t1"
        (.thrown (.other "boom")) 5 10) "t1" =
      some { demoEntry with
        usageCount := demoEntry.usageCount + 1
        lastUsed := some 10
        averageExecutionTime :=
          (demoEntry.averageExecutionTime * (demoEntry.usageCount : ℚ) + (5 : ℚ)) /
            ((demoEntry.usageCount : ℚ) + 1)
        errorCount := demoEntry.errorCount + 2 }) :=
  usage_stats_recorded demoRegistry true vfNone "t1" demoEntry okResult
    (.other "boom") 5 10 rfl rfl rfl rfl rfl

/-! ### C5 — version comparison -/

theorem padGet_eq_zero {l : List Nat} {i : Nat} (h : l.length ≤ i) :
    padGet l i = 0 :=
  List.getD_eq_default l 0 h

/-- `specFrom` at index `0` is the specification's comparison. -/
theorem specFrom_zero (a b : List Nat) : specFrom a b 0 ↔ specLexGE a b := by
  simp [specFrom, specLexGE, Nat.zero_le]

/-- Agreeing components at index `i` shift the comparison to index
`i + 1`. -/
theorem specFrom_succ (a b : List Nat) (i : Nat)
    (h : padGet a i = padGet b i) :
    specFrom a b i ↔ specFrom a b (i + 1) := by
  constructor
  · rintro (hall | ⟨j, hij, hgt, hprev⟩)
    · exact Or.inl fun j hj => hall j (Nat.le_of_succ_le hj)
    · rcases Nat.eq_or_lt_of_le hij with heq | hlt
      · rw [← heq] at hgt
        omega
      · exact Or.inr ⟨j, hlt, hgt,
          fun k hk1 hk2 => hprev k (Nat.le_of_succ_le hk1) hk2⟩
  · rintro (hall | ⟨j, hij, hgt, hprev⟩)
    · refine Or.inl fun j hj => ?_
      rcases Nat.eq_or_lt_of_le hj with heq | hlt
      · rw [← heq]
        exact h
      · exact hall j hlt
    · refine Or.inr ⟨j, Nat.le_of_succ_le hij, hgt, fun k hk1 hk2 => ?_⟩
      rcases Nat.eq_or_lt_of_le hk1 with heq | hlt
      · rw [← heq]
        exact h
      · exact hprev k hlt hk2

/-- The comparison loop, run with enough fuel to cover both component
lists from index `i` on, decides exactly `specFrom`. -/
theorem cmpLoop_iff (a b : List Nat) :
    ∀ (fuel i : Nat), max a.length b.length ≤ i + fuel →
      (cmpLoop a b i fuel = true ↔ specFrom a b i)
  | 0, i, hfuel => by
    simp only [cmpLoop, true_iff]
    refine Or.inl fun j hj => ?_
    have ha : a.length ≤ j := le_trans (le_trans (le_max_left _ _) hfuel) hj
    have hb : b.length ≤ j := le_trans (le_trans (le_max_right _ _) hfuel) hj
    rw [padGet_eq_zero ha, padGet_eq_zero hb]
  | fuel + 1, i, hfuel => by
    simp only [cmpLoop]
    rcases Nat.lt_trichotomy (padGet a i) (padGet b i) with hlt | heq | hgt
    · rw [if_neg (by omega), if_pos hlt]
      simp only [Bool.false_eq_true, false_iff]
      rintro (hall | ⟨j, hij, hgt, hprev⟩)
      · have := hall i (le_refl i)
        omega
      · rcases Nat.eq_or_lt_of_le hij with heq | hij'
        · rw [← heq] at hgt
          omega
        · have := hprev i (le_refl i) hij'
          omega
    · rw [if_neg (by omega), if_neg (by omega)]
      rw [specFrom_succ a b i heq]
      exact cmpLoop_iff a b fuel (i + 1) (by omega)
    · rw [if_pos hgt]
      simp only [true_iff]
      exact Or.inr ⟨i, le_refl i, hgt, fun k hk1 hk2 => by omega⟩

/-- The comparison accepts equal component lists. -/
theorem cmpLoop_self (l : List Nat) (fuel i : Nat) :
    cmpLoop l l i fuel = true := by
  induction fuel generalizing i with
  | zero => rfl
  | succ fuel ih => simp [cmpLoop, ih]

/-- C5: `isVersionAtLeast a b` decides exactly whether `a`'s dotted-integer
components are component-wise lexicographically greater than or equal to
`b`'s, missing trailing components treated as zero; equal versions satisfy
it, `"8.9.9"` is not at least `"9.0.0"`, and `"9.0.1"` is at least
`"9.0.0"`. -/
theorem isVersionAtLeast_correct :
    (∀ a b : String,
      isVersionAtLeast a b = true ↔ specLexGE (parseVersion a) (parseVersion b)) ∧
    (∀ a : String, isVersionAtLeast a a = true) ∧
    isVersionAtLeast "9.0.0" "9.0.0" = true ∧
    isVersionAtLeast "8.9.9" "9.0.0" = false ∧
    isVersionAtLeast "9.0.1" "9.0.0" = true := by
  refine ⟨?_, ?_, ?_, ?_, ?_⟩
  · intro a b
    rw [isVersionAtLeast,
      cmpLoop_iff (parseVersion a) (parseVersion b) _ 0 (by omega),
      specFrom_zero]
  · intro a
    exact cmpLoop_self (parseVersion a) _ 0
  · decide
  · decide
  · decide

/-- Witness for C5's theorem at concrete version strings. -/
theorem isVersionAtLeast_correct_witness :
    specLexGE (parseVersion "9.0.1") (parseVersion "9.0.0") ∧
    isVersionAtLeast "7.3" "7.3" = true :=
  ⟨(isVersionAtLeast_correct.1 "9.0.1" "9.0.0").mp (by decide),
   isVersionAtLeast_correct.2.1 "7.3"⟩

/-! ### C9 — feature availability gating -/

/-- C9: feature availability is the conjunction of the version gate and the
hardware gate; a wildcard hardware set passes every model; and for a
feature gated at minimum version `"9.0.0"` on hardware `{ModelA, ModelB}`
the flag is false at version `"8.9.0"` on every model, false on `"ModelC"`
at `"9.1.0"`, and true on `"ModelA"` at `"9.0.0"`. -/
theorem feature_gating :
    (∀ (v hw minv : String) (req : List String),
      checkFeatureSupport v hw minv req = (isVersionAtLeast v minv && hardwareGate hw req)) ∧
    (∀ v hw : String, checkZBFSupport v hw =
      checkFeatureSupport v hw ZBF_MINIMUM zbfRequiredHardware) ∧
    (∀ (v hw minv : String),
      checkFeatureSupport v hw minv ["all"] = isVersionAtLeast v minv) ∧
    (∀ hw : String,
      checkFeatureSupport "8.9.0" hw "9.0.0" ["ModelA", "ModelB"] = false) ∧
    checkFeatureSupport "9.1.0" "ModelC" "9.0.0" ["ModelA", "ModelB"] = false ∧
    checkFeatureSupport "9.0.0" "ModelA" "9.0.0" ["ModelA", "ModelB"] = true := by
  have hconj : ∀ (v hw minv : String) (req : List String),
      checkFeatureSupport v hw minv req =
        (isVersionAtLeast v minv && hardwareGate hw req) := by
    intro v hw minv req
    cases hv : isVersionAtLeast v minv <;>
      cases hall : req.contains "all" <;>
        simp [checkFeatureSupport, hardwareGate, hv, hall]
  refine ⟨hconj, fun _ _ => rfl, ?_, ?_, ?_, ?_⟩
  · intro v hw minv
    rw [hconj]
    cases hv : isVersionAtLeast v minv <;> simp [hardwareGate]
  · intro hw
    rw [hconj]
    have h89 : isVersionAtLeast "8.9.0" "9.0.0" = false := by decide
    rw [h89]
    rfl
  · decide
  · decide

/-! ### C6 — retry with exponential backoff -/

/-- C6: with the default attempt ceiling of 3, an operation failing twice
with retryable errors and succeeding on the third call yields overall
success after exactly 3 underlying attempts, with the delay before retry
attempt `N + 1` equal to `min(baseDelay * 2^(N-1), maxDelay)` plus the
jitter drawn in `[0, 1000)`; an operation failing with a non-retryable
error is attempted exactly once and its error propagates. -/
theorem retry_behavior :
    defaultRetryConfig.maxAttempts = 3 ∧
    defaultRetryConfig.exponentialBackoff = true ∧
    (∀ (base maxD : ℚ) (ops : Nat → Except Thrown Nat) (jit : Nat → ℚ)
       (e1 e2 : Thrown) (v : Nat),
       ops 0 = .error e1 → ops 1 = .error e2 → ops 2 = .ok v →
       defaultRetryCondition e1 = true → defaultRetryCondition e2 = true →
       withRetry ops defaultRetryCondition
           { maxAttempts := 3, baseDelay := base, maxDelay := maxD,
             exponentialBackoff := true } jit =
         (.ok v, 3, [min (base * 2 ^ 0) maxD + jit 1,
                     min (base * 2 ^ 1) maxD + jit 2])) ∧
    (∀ (base maxD : ℚ) (ops : Nat → Except Thrown Nat) (jit : Nat → ℚ)
       (e : Thrown),
       ops 0 = .error e → defaultRetryCondition e = false →
       withRetry ops defaultRetryCondition
           { maxAttempts := 3, baseDelay := base, maxDelay := maxD,
             exponentialBackoff := true } jit =
         (.error e, 1, [])) := by
  refine ⟨rfl, rfl, ?_, ?_⟩
  · intro base maxD ops jit e1 e2 v h0 h1 h2 hc1 hc2
    simp [withRetry, withRetryGo, h0, h1, h2, hc1, hc2, backoffDelay]
  · intro base maxD ops jit e h0 hc
    simp [withRetry, withRetryGo, h0, hc]

/-- A retryable connection error. -/
def retryableError : Thrown :=
  .mcp { message := "Connection refused", code := .CONNECTION_FAILED,
         statusCode := some 503, retryable := true }

/-- A non-retryable validation error. -/
def nonRetryableError : Thrown :=
  .mcp { message := "Validation failed", code := .VALIDATION_ERROR,
         statusCode := some 400, retryable := false }

/-- Call outcomes that fail twice retryably, then succeed. -/
def opsEventualSuccess : Nat → Except Thrown Nat := fun n =>
  if n = 0 then .error retryableError
  else if n = 1 then .error retryableError
  else .ok 7

/-- Call outcomes that fail non-retryably at once. -/
def opsValidationFailure : Nat → Except Thrown Nat := fun _ =>
  .error nonRetryableError

/-- Witness for C6's theorem at concrete inputs. -/
theorem retry_behavior_witness :
    withRetry opsEventualSuccess defaultRetryCondition
        { maxAttempts := 3, baseDelay := 1000, maxDelay := 10000,
          exponentialBackoff := true } (fun _ => 250) =
      (.ok 7, 3, [min ((1000 : ℚ) * 2 ^ 0) 10000 + 250,
                  min ((1000 : ℚ) * 2 ^ 1) 10000 + 250]) ∧
    withRetry opsValidationFailure defaultRetryCondition
        { maxAttempts := 3, baseDelay := 1000, maxDelay := 10000,
          exponentialBackoff := true } (fun _ => 250) =
      (.error nonRetryableError, 1, []) :=
  ⟨retry_behavior.2.2.1 1000 10000 opsEventualSuccess (fun _ => 250)
      retryableError retryableError 7 rfl rfl rfl rfl rfl,
   retry_behavior.2.2.2 1000 10000 opsValidationFailure (fun _ => 250)
      nonRetryableError rfl rfl⟩

/-! ### C7 — response-envelope normalization -/

/-- C7 counterexample: a response body that is a two-element JSON array has
no envelope, and the client wraps it with `data` set to the array itself —
two elements, not the single-element list `[payload]` the claim
describes. -/
theorem normalization_counterexample :
    normalizeResponse (Json.arr [Json.num 1, Json.num 2]) =
      Json.obj [("meta", Json.obj [("msg", Json.str "success"), ("rc", Json.str "ok")]),
                ("data", Json.arr [Json.num 1, Json.num 2])] ∧
    Json.arr [Json.num 1, Json.num 2] ≠
      Json.arr [Json.arr [Json.num 1, Json.num 2]] := by
  refine ⟨rfl, ?_⟩
  intro h
  simp only [Json.arr.injEq, List.cons.injEq] at h
  exact absurd h.1 (by intro h1; cases h1)

/-- C7 amended: a body already carrying a truthy `{meta, data}` envelope is
passed through unchanged; any other body is wrapped into the canonical
envelope with `meta.rc = "ok"` and `data` set to the raw payload itself
when the payload is an array, and to the single-element list `[payload]`
otherwise. -/
theorem normalization_behavior :
    (∀ d : Json, envelopeDetected d = true → normalizeResponse d = d) ∧
    (∀ d : Json, envelopeDetected d = false →
      jsGet (normalizeResponse d) "meta" =
        some (Json.obj [("msg", Json.str "success"), ("rc", Json.str "ok")]) ∧
      jsGet (normalizeResponse d) "data" = some (wrapData d)) ∧
    (∀ elems : List Json, wrapData (Json.arr elems) = Json.arr elems) ∧
    (∀ d : Json, (∀ elems : List Json, d ≠ Json.arr elems) →
      wrapData d = Json.arr [d]) := by
  refine ⟨?_, ?_, fun _ => rfl, ?_⟩
  · intro d h
    simp [normalizeResponse, h]
  · intro d h
    refine ⟨?_, ?_⟩ <;>
      simp [normalizeResponse, h, syntheticEnvelope, jsGet, jsGet.lookupField]
  · intro d h
    cases d with
    | arr elems => exact absurd rfl (h elems)
    | null => rfl
    | bool b => rfl
    | num q => rfl
    | str s => rfl
    | obj fields => rfl

/-- An envelope-shaped response body. -/
def envelopeBody : Json :=
  Json.obj [("meta", Json.obj [("msg", Json.str "ok"), ("rc", Json.str "ok")]),
            ("data", Json.arr [Json.str "device"])]

/-- Witness for C7's amended theorem at concrete bodies. -/
theorem normalization_behavior_witness :
    normalizeResponse envelopeBody = envelopeBody ∧
    jsGet (normalizeResponse (Json.num 3)) "meta" =
      some (Json.obj [("msg", Json.str "success"), ("rc", Json.str "ok")]) ∧
    jsGet (normalizeResponse (Json.num 3)) "data" = some (wrapData (Json.num 3)) ∧
    wrapData (Json.num 3) = Json.arr [Json.num 3] :=
  ⟨normalization_behavior.1 envelopeBody rfl,
   (normalization_behavior.2.1 (Json.num 3) rfl).1,
   (normalization_behavior.2.1 (Json.num 3) rfl).2,
   normalization_behavior.2.2.2 (Json.num 3) (fun _ h => Json.noConfusion h)⟩

/-! ### C8 — capability snapshot caching -/

/-- A concrete capability snapshot. -/
def sampleCapabilities : FeatureCapabilities :=
  { version := "9.0.0", supportsZBF := true, supportsLegacyFirewall := true,
    supportedEndpoints := ["/api/system"], deprecatedEndpoints := [],
    hardwareCapabilities :=
      { model := "UDM-Pro", supportsAdvancedFirewall := true,
        maxFirewallRules := 600, maxZones := 30 } }

/-- C8: starting with an empty cache, a successful detection at `t1`
followed by a second detection within the 60-minute validity window returns
the identical snapshot both times while issuing exactly one underlying
probe in total (1 for the first call, 0 for the second, which leaves the
state untouched); and `forceDetection` always issues a probe, whatever the
cache state and age. -/
theorem capability_caching :
    (∀ (t1 t2 : Nat) (caps : FeatureCapabilities)
       (probe2 : Except UniFiMCPError FeatureCapabilities),
       t2 - t1 < cacheValidityMinutes * 60 * 1000 →
       detectCapabilities initialDetectorState t1 (.ok caps) =
         (.ok caps, ⟨some caps, some t1⟩, 1) ∧
       detectCapabilities ⟨some caps, some t1⟩ t2 probe2 =
         (.ok caps, ⟨some caps, some t1⟩, 0)) ∧
    (∀ (st : DetectorState) (now : Nat)
       (probe : Except UniFiMCPError FeatureCapabilities),
       (forceDetection st now probe).2.2 = 1) := by
  constructor
  · intro t1 t2 caps probe2 hwindow
    refine ⟨rfl, ?_⟩
    simp [detectCapabilities, isCacheValid, hwindow]
  · intro st now probe
    cases probe <;> rfl

/-- Witness for C8's theorem at concrete times and snapshots. -/
theorem capability_caching_witness :
    detectCapabilities initialDetectorState 0 (.ok sampleCapabilities) =
      (.ok sampleCapabilities, ⟨some sampleCapabilities, some 0⟩, 1) ∧
    detectCapabilities ⟨some sampleCapabilities, some 0⟩ 5
        (.error capabilityDetectionFailure) =
      (.ok sampleCapabilities, ⟨some sampleCapabilities, some 0⟩, 0) :=
  capability_caching.1 0 5 sampleCapabilities
    (.error capabilityDetectionFailure) (by decide)

end UniFiMCP
